import Mathlib

/-!
Shallow embedding of the solar-sensor EDA dashboard script (src/app/main.py).

The script downloads a CSV named by a registry entry, loads it into a shared
table, and runs a fixed sequence of rendering sections.  Sections are modelled
as functions from the table to a list of emitted outputs plus either the
(possibly mutated) table or an uncaught exception; the script composes them
sequentially, halting at the first uncaught exception, exactly as the hosting
framework re-runs the linear script top to bottom.

Library calls (pandas, plotly) are modelled by their documented semantics on
the fragments the script uses: column selection by dtype, groupby-mean,
daily resampling with mean aggregation, Pearson correlation, value clipping.
Numeric cell values are modelled as rationals; timestamps as integer minutes,
with calendar days given by flooring division.  String-to-datetime parsing is
abstracted as a parse failure (the script only reaches it through a guarded
try block); temporal and numeric columns convert as pandas does.
-/

namespace SolarEDA

/-- A cell value, used as a groupby key. -/
inductive Value
  | num (q : ℚ)
  | str (s : String)
  | time (n : Int)
deriving DecidableEq, Repr

/-- The contents of one column; the constructor is the inferred dtype
(float64/int64, object, datetime64). -/
inductive ColData
  | nums (xs : List ℚ)
  | strs (xs : List String)
  | times (xs : List Int)
deriving DecidableEq, Repr

/-- Number of cells in a column. -/
def ColData.size : ColData → Nat
  | .nums xs => xs.length
  | .strs xs => xs.length
  | .times xs => xs.length

/-- The cells of a column, dtype-erased (used for groupby keys). -/
def ColData.toValues : ColData → List Value
  | .nums xs => xs.map Value.num
  | .strs xs => xs.map Value.str
  | .times xs => xs.map Value.time

/-- A named column. -/
structure Col where
  name : String
  data : ColData
deriving DecidableEq, Repr

/-- The Loaded Table: ordered named columns plus an optional named index
(none models the default RangeIndex). -/
structure Table where
  index : Option Col
  cols : List Col
deriving DecidableEq, Repr

/-- The empty table, as returned by the loader on failure. -/
def Table.empty : Table := ⟨none, []⟩

/-- Row count, taken from the first column (all columns of a well-formed
table have the same length). -/
def Table.nrows (t : Table) : Nat :=
  match t.cols with
  | [] => 0
  | c :: _ => c.data.size

/-- Emptiness test of the table, true when there are no columns or no rows. -/
def Table.isEmpty (t : Table) : Bool :=
  t.cols.isEmpty || t.nrows == 0

/-- Column-presence test. -/
def hasCol (t : Table) (n : String) : Bool :=
  (t.cols.find? (fun c => c.name == n)).isSome

/-- Data of the first column with the given name (default: empty numeric). -/
def getColD (t : Table) (n : String) : ColData :=
  match t.cols.find? (fun c => c.name == n) with
  | some c => c.data
  | none => ColData.nums []

/-- Column assignment: replace the data of every column with the given name. -/
def setColData (t : Table) (n : String) (d : ColData) : Table :=
  { t with cols := t.cols.map (fun c => if c.name == n then { c with data := d } else c) }

/-- In-place set_index: move the named column out of the column list and
into the index slot. -/
def setIndexCol (t : Table) (n : String) : Table :=
  { index :=
      match t.cols.find? (fun c => c.name == n) with
      | some c => some c
      | none => t.index,
    cols := t.cols.filter (fun c => c.name != n) }

/-- Names of the float64/int64 columns (select_dtypes on the column axis). -/
def numericColNames (t : Table) : List String :=
  t.cols.filterMap (fun c =>
    match c.data with
    | .nums _ => some c.name
    | _ => none)

/-- Data of the float64/int64 columns, in column order. -/
def numericData (t : Table) : List (List ℚ) :=
  t.cols.filterMap (fun c =>
    match c.data with
    | .nums xs => some xs
    | _ => none)

/-- Emptiness of the numeric sub-frame: no numeric columns or no rows. -/
def numericDfEmpty (t : Table) : Bool :=
  (numericData t).isEmpty || t.nrows == 0

/-- A selectbox widget over a list of options: with a non-empty option list
the user choice is the option at the chosen position (reduced modulo the
number of options so every choice index is meaningful); with an empty option
list the widget yields no value. -/
def selectbox (opts : List String) (k : Nat) : Option String :=
  opts.get? (k % opts.length)

/-- Arithmetic mean of a list of rationals (sum over length). -/
def meanQ (xs : List ℚ) : ℚ := xs.sum / (xs.length : ℚ)

/-- Values of a measurement list at the rows whose key equals the given
group key (rows are paired positionally, as in a frame). -/
def selAt (keys : List Value) (xs : List ℚ) (v : Value) : List ℚ :=
  ((keys.zip xs).filter (fun p => p.1 == v)).map Prod.snd

/-- groupby(key)[[c1, c2]].mean(): one row per distinct key value, holding
the mean of each of the two measurement lists over that group. -/
def groupbyMean2 (keys : List Value) (as bs : List ℚ) : List (Value × List ℚ) :=
  keys.dedup.map (fun v => (v, [meanQ (selAt keys as v), meanQ (selAt keys bs v)]))

/-- The result of a two-column groupby-mean, with its key and column labels. -/
structure GroupTable where
  keyName : String
  colNames : List String
  rows : List (Value × List ℚ)
deriving DecidableEq, Repr

/-- Calendar day of a timestamp given in minutes (floor division). -/
def dayOf (t : Int) : Int := Int.fdiv t 1440

/-- Values falling in the given calendar day (timestamps paired with values
positionally). -/
def dayGroup (ts : List Int) (vs : List ℚ) (d : Int) : List ℚ :=
  ((ts.zip vs).filter (fun p => dayOf p.1 == d)).map Prod.snd

/-- The consecutive calendar days from the earliest to the latest timestamp;
empty when there are no timestamps. -/
def dayRange (ts : List Int) : List Int :=
  match ts.map dayOf with
  | [] => []
  | d :: ds =>
    (List.range (((d :: ds).foldr max d - (d :: ds).foldr min d).toNat + 1)).map
      (fun (k : Nat) => (d :: ds).foldr min d + (k : Int))

/-- resample("D").mean(): for every day in the covered range, the mean of
the values falling in that day, or no value for a day with no rows. -/
def resampleDailyMean (ts : List Int) (vs : List ℚ) : List (Int × Option ℚ) :=
  (dayRange ts).map (fun d =>
    (d, if (dayGroup ts vs d).isEmpty then none else some (meanQ (dayGroup ts vs d))))

/-- to_datetime over a column: temporal data passes through, numeric data is
converted by flooring (epoch interpretation), textual data is abstracted as
a parse failure (the caller wraps the call in a try block). -/
def parseTimes : ColData → Option (List Int)
  | .times xs => some xs
  | .nums xs => some (xs.map (fun q => q.floor))
  | .strs _ => none

/-- clip(lower=0) over a column: numeric values are floored at zero. -/
def clipData : ColData → ColData
  | .nums xs => .nums (xs.map (fun x => max 0 x))
  | d => d

/-- The in-place size-column clip of the bubble section: every column with
the chosen name gets its data clipped at zero. -/
def setColClip (t : Table) (s : String) : Table :=
  { t with cols := t.cols.map (fun c => if c.name == s then { c with data := clipData c.data } else c) }

/-- Everything a section can emit to the display surface. -/
inductive Out
  | title (s : String)
  | write (t : Table)
  | header (s : String)
  | warn (s : String)
  | err (s : String)
  | describeOf (t : Table)
  | missingOf (t : Table)
  | heatmap (nd : List (List ℚ))
  | linePlot (series : List (Int × Option ℚ))
  | histogram (col : String) (nbins : Nat)
  | polar (r theta : String)
  | groupTable (g : GroupTable)
  | bubble (x y size : String) (sizeMax : Nat)
deriving DecidableEq, Repr

/-- The message of the uncaught KeyError raised by the cleaning section when
ModA or ModB is missing. -/
def keyErrMsg : String := "KeyError: ModA, ModB"

/-- The message of the uncaught error raised by the bubble section when the
selectboxes have no options. -/
def noneErrMsg : String := "KeyError: None"

/-- Show Raw Data: writes the table when the checkbox is ticked. -/
def rawSection (t : Table) (showRaw : Bool) : List Out × Except String Table :=
  ((if showRaw then [Out.write t] else []), Except.ok t)

/-- Summary Statistics: describe() on a non-empty table, else a warning. -/
def summarySection (t : Table) : List Out × Except String Table :=
  (Out.header "Summary Statistics" ::
    (if t.isEmpty then [Out.warn "Dataset is empty or could not be loaded."]
     else [Out.describeOf t]), Except.ok t)

/-- Missing Values: isnull().sum() on a non-empty table. -/
def missingSection (t : Table) : List Out × Except String Table :=
  (Out.header "Missing Values" ::
    (if t.isEmpty then [] else [Out.missingOf t]), Except.ok t)

/-- Correlation Heatmap: on a non-empty table, a heatmap of the correlation
matrix of the numeric sub-frame, or a warning when that sub-frame is empty. -/
def corrSection (t : Table) : List Out × Except String Table :=
  (Out.header "Correlation Heatmap" ::
    (if t.isEmpty then []
     else if numericDfEmpty t then [Out.warn "No numeric columns available for correlation analysis."]
     else [Out.heatmap (numericData t)]), Except.ok t)

/-- Time Series Analysis: when a Timestamp column exists, parse it in place,
move it into the index, and plot the daily-mean GHI series; parse failures
are caught and reported; without a Timestamp column nothing is emitted. -/
def timeSeriesSection (t : Table) : List Out × Except String Table :=
  if hasCol t "Timestamp" then
    match parseTimes (getColD t "Timestamp") with
    | none =>
      ([Out.header "Time Series Analysis", Out.err "Error processing time series"], Except.ok t)
    | some ts =>
      let t2 := setIndexCol (setColData t "Timestamp" (ColData.times ts)) "Timestamp"
      if hasCol t2 "GHI" then
        match getColD t2 "GHI" with
        | ColData.nums gs =>
          ([Out.header "Time Series Analysis",
            Out.linePlot (resampleDailyMean ts gs)], Except.ok t2)
        | _ =>
          ([Out.header "Time Series Analysis", Out.err "Error processing time series"], Except.ok t2)
      else
        ([Out.header "Time Series Analysis",
          Out.warn "GHI column not found for time series analysis."], Except.ok t2)
  else ([], Except.ok t)

/-- Distribution of Key Variables: a 30-bin histogram of the user-selected
numeric column, or a warning when there are no numeric columns. -/
def distSection (t : Table) (k : Nat) : List Out × Except String Table :=
  match selectbox (numericColNames t) k with
  | some c => ([Out.header "Distribution of Key Variables", Out.histogram c 30], Except.ok t)
  | none =>
    ([Out.header "Distribution of Key Variables",
      Out.warn "No numeric columns available for distribution plots."], Except.ok t)

/-- Wind Analysis: a polar scatter when WD and WS are both present, else
nothing. -/
def windSection (t : Table) : List Out × Except String Table :=
  (if hasCol t "WD" && hasCol t "WS" then
     [Out.header "Wind Analysis", Out.polar "WS" "WD"]
   else [], Except.ok t)

/-- Impact of Cleaning on Sensor Measurements: gated on the Cleaning column;
selecting the two measurement columns raises an uncaught KeyError when one
is absent, and aggregating a non-numeric one raises an uncaught TypeError. -/
def cleaningSection (t : Table) : List Out × Except String Table :=
  if hasCol t "Cleaning" then
    if hasCol t "ModA" && hasCol t "ModB" then
      match getColD t "ModA", getColD t "ModB" with
      | ColData.nums as, ColData.nums bs =>
        ([Out.header "Impact of Cleaning on Sensor Measurements",
          Out.groupTable ⟨"Cleaning", ["ModA", "ModB"],
            groupbyMean2 (getColD t "Cleaning").toValues as bs⟩], Except.ok t)
      | _, _ =>
        ([Out.header "Impact of Cleaning on Sensor Measurements"],
         Except.error "TypeError: could not aggregate non-numeric column")
    else
      ([Out.header "Impact of Cleaning on Sensor Measurements"], Except.error keyErrMsg)
  else ([], Except.ok t)

/-- Bubble Chart Analysis: three selectboxes over the numeric columns; the
chosen size column is clipped at zero in place, then the chart is emitted
with a fixed maximum marker size; with no numeric columns the widgets yield
no value and indexing the table with it raises an uncaught KeyError. -/
def bubbleSection (t : Table) (kx ky ks : Nat) : List Out × Except String Table :=
  match selectbox (numericColNames t) kx,
        selectbox (numericColNames t) ky,
        selectbox (numericColNames t) ks with
  | some x, some y, some s =>
    ([Out.header "Bubble Chart Analysis", Out.bubble x y s 60], Except.ok (setColClip t s))
  | _, _, _ => ([Out.header "Bubble Chart Analysis"], Except.error noneErrMsg)

/-- Sequential composition of sections: an uncaught exception halts the
script, keeping the outputs emitted so far. -/
def andThen (r : List Out × Except String Table)
    (f : Table → List Out × Except String Table) : List Out × Except String Table :=
  match r with
  | (outs, Except.ok t) =>
    match f t with
    | (o2, r2) => (outs ++ o2, r2)
  | (outs, Except.error e) => (outs, Except.error e)

/-- The whole rendering pipeline on a loaded table, in source order. -/
def script (name : String) (t0 : Table) (showRaw : Bool) (kd kx ky ks : Nat) :
    List Out × Except String Table :=
  let r0 : List Out × Except String Table := ([Out.title name], Except.ok t0)
  let r1 := andThen r0 (fun t => rawSection t showRaw)
  let r2 := andThen r1 summarySection
  let r3 := andThen r2 missingSection
  let r4 := andThen r3 corrSection
  let r5 := andThen r4 timeSeriesSection
  let r6 := andThen r5 (fun t => distSection t kd)
  let r7 := andThen r6 windSection
  let r8 := andThen r7 cleaningSection
  andThen r8 (fun t => bubbleSection t kx ky ks)

/-! ## Dataset loader -/

/-- A successfully parsed CSV: the header row and one data column per header
entry. -/
structure Csv where
  header : List String
  columns : List ColData
deriving DecidableEq, Repr

/-- read_csv result as a table: the header names the columns; default index. -/
def tableOfCsv (c : Csv) : Table :=
  ⟨none, (c.header.zip c.columns).map (fun p => ⟨p.1, p.2⟩)⟩

/-- The Dataset Registry: the fixed name-to-remote-location mapping. -/
def drive_links : List (String × String) :=
  [("Benin-Malanville",
    "https://drive.google.com/file/d/1UUQLPW5uPlTBHn4ydYCVn59RfF5a0fOl/view?usp=drive_link"),
   ("Sierra Leone-Bumbuna",
    "https://drive.google.com/file/d/1LU2uzALN26Uj4b4Ez7FT9o2whMrkctW1/view?usp=sharing"),
   ("Togo-Dapaong_QC",
    "https://drive.google.com/file/d/1KJLvtnlPzv7Ov_Ve_zVeVhBmrNrFK9Fc/view?usp=sharing")]

/-- Split a character list on the slash character (the pieces left to
right, as the split method yields them). -/
def splitSlash : List Char → List (List Char)
  | [] => [[]]
  | c :: rest =>
    match splitSlash rest with
    | [] => [[]]
    | w :: ws => if c = '/' then [] :: w :: ws else (c :: w) :: ws

/-- The second-to-last slash-separated component of the share link, as the
source computes with a negative index; no such component is an IndexError. -/
def extractFileId (url : String) : Option String :=
  if 2 ≤ (splitSlash url.toList).length then
    ((splitSlash url.toList).drop ((splitSlash url.toList).length - 2)).head?.map String.mk
  else none

/-- The loader.  The network download together with the CSV read is external
IO, modelled by the fetch parameter: its error case stands for any exception
raised while downloading or parsing.  Every failure path — a missing url, a
malformed share link, a download or parse exception — is caught by the
try block, reports a user-visible error and yields the empty table. -/
def download_and_load_data (url : Option String) (fetch : Except String Csv) :
    Table × List Out :=
  match url with
  | none => (Table.empty, [Out.err "Error loading dataset: AttributeError"])
  | some u =>
    match extractFileId u with
    | none => (Table.empty, [Out.err "Error loading dataset: IndexError"])
    | some _ =>
      match fetch with
      | Except.ok csv => (tableOfCsv csv, [])
      | Except.error e => (Table.empty, [Out.err ("Error loading dataset: " ++ e)])

/-! ## Pearson correlation (pandas corr on the numeric sub-frame) -/

/-- Deviations of a list from its mean. -/
def devs (xs : List ℚ) : List ℚ := xs.map (fun x => x - meanQ xs)

/-- Unnormalised covariance: sum of products of paired deviations (the
normalisation cancels in the correlation quotient). -/
def covQ (xs ys : List ℚ) : ℚ := (List.zipWith (fun a b => a * b) (devs xs) (devs ys)).sum

/-- Unnormalised variance: sum of squared deviations; it is zero exactly
when the pandas sample variance is zero. -/
def varQ (xs : List ℚ) : ℚ := covQ xs xs

/-- Pearson correlation coefficient of two columns. -/
noncomputable def pearson (xs ys : List ℚ) : ℝ :=
  (covQ xs ys : ℝ) / (Real.sqrt (varQ xs) * Real.sqrt (varQ ys))

/-- The correlation matrix of a list of numeric columns, one row and one
column per input column. -/
noncomputable def corrMatrix (nd : List (List ℚ)) : List (List ℝ) :=
  nd.map (fun xs => nd.map (fun ys => pearson xs ys))

/-- Total list access with an explicit default. -/
def listAt {α : Type} (d : α) : List α → Nat → α
  | [], _ => d
  | x :: _, 0 => x
  | _ :: xs, n + 1 => listAt d xs n

/-- Entry of a row-major matrix (zero outside the matrix). -/
noncomputable def matEntry (m : List (List ℝ)) (i j : Nat) : ℝ :=
  listAt 0 (listAt [] m i) j

/-- Placeholder column used as a default for total position access. -/
def colDefault : Col := ⟨"", ColData.nums []⟩

instance {ε α : Type} [DecidableEq ε] [DecidableEq α] : DecidableEq (Except ε α) := fun x y =>
  match x, y with
  | Except.ok a, Except.ok b =>
    if h : a = b then Decidable.isTrue (by rw [h])
    else Decidable.isFalse (fun hc => h (Except.ok.inj hc))
  | Except.error a, Except.error b =>
    if h : a = b then Decidable.isTrue (by rw [h])
    else Decidable.isFalse (fun hc => h (Except.error.inj hc))
  | Except.ok _, Except.error _ => Decidable.isFalse (fun hc => Except.noConfusion hc)
  | Except.error _, Except.ok _ => Decidable.isFalse (fun hc => Except.noConfusion hc)

/-! ## Helper lemmas -/

lemma listAt_map {α β : Type} (d : α) (d' : β) (f : α → β) :
    ∀ (l : List α) (i : Nat), i < l.length → listAt d' (l.map f) i = f (listAt d l i) := by
  intro l
  induction l with
  | nil => intro i hi; simp at hi
  | cons x xs ih =>
    intro i hi
    cases i with
    | zero => rfl
    | succ n => exact ih n (by simpa using hi)

lemma listAt_ge {α : Type} (d : α) :
    ∀ (l : List α) (i : Nat), l.length ≤ i → listAt d l i = d := by
  intro l
  induction l with
  | nil => intro i _; cases i <;> rfl
  | cons x xs ih =>
    intro i hi
    cases i with
    | zero => simp at hi
    | succ n => exact ih n (by simpa using hi)

lemma selectbox_some (opts : List String) (k : Nat) (h : opts ≠ []) :
    ∃ c, selectbox opts k = some c ∧ c ∈ opts := by
  have hl : 0 < opts.length := List.length_pos.mpr h
  have hm : k % opts.length < opts.length := Nat.mod_lt _ hl
  refine ⟨opts.get ⟨k % opts.length, hm⟩, ?_, List.get_mem _ _ _⟩
  simp [selectbox, List.get?_eq_get hm]

lemma selectbox_nil (k : Nat) : selectbox [] k = none := rfl

lemma find?_cols_set (l : List Col) (n m : String) (d : ColData) (hnm : m ≠ n) :
    (l.map (fun c => if c.name == n then { c with data := d } else c)).find?
        (fun c => c.name == m)
      = l.find? (fun c => c.name == m) := by
  induction l with
  | nil => rfl
  | cons c l ih =>
    rw [List.map_cons]
    by_cases h : c.name = n
    · have hcm : (c.name == m) = false := by
        rw [beq_eq_false_iff_ne, h]; exact fun hh => hnm hh.symm
      rw [if_pos (by simp [h])]
      rw [List.find?_cons_of_neg _ (by simp [hcm]),
          List.find?_cons_of_neg _ (by simp [hcm])]
      exact ih
    · rw [if_neg (by simp [h])]
      by_cases hm : c.name = m
      · rw [List.find?_cons_of_pos _ (by simp [hm]),
            List.find?_cons_of_pos _ (by simp [hm])]
      · rw [List.find?_cons_of_neg _ (by simp [hm]),
            List.find?_cons_of_neg _ (by simp [hm])]
        exact ih

lemma find?_cols_filter (l : List Col) (n m : String) (hnm : m ≠ n) :
    (l.filter (fun c => c.name != n)).find? (fun c => c.name == m)
      = l.find? (fun c => c.name == m) := by
  induction l with
  | nil => rfl
  | cons c l ih =>
    rw [List.filter_cons]
    by_cases h : c.name = n
    · have hcm : (c.name == m) = false := by
        rw [beq_eq_false_iff_ne, h]; exact fun hh => hnm hh.symm
      rw [if_neg (by simp [h])]
      rw [List.find?_cons_of_neg _ (by simp [hcm])]
      exact ih
    · rw [if_pos (by simp [h])]
      by_cases hm : c.name = m
      · rw [List.find?_cons_of_pos _ (by simp [hm]),
            List.find?_cons_of_pos _ (by simp [hm])]
      · rw [List.find?_cons_of_neg _ (by simp [hm]),
            List.find?_cons_of_neg _ (by simp [hm])]
        exact ih

lemma hasCol_setColData_ne (t : Table) (n m : String) (d : ColData) (h : m ≠ n) :
    hasCol (setColData t n d) m = hasCol t m := by
  simp only [hasCol, setColData]
  rw [find?_cols_set t.cols n m d h]

lemma getColD_setColData_ne (t : Table) (n m : String) (d : ColData) (h : m ≠ n) :
    getColD (setColData t n d) m = getColD t m := by
  simp only [getColD, setColData]
  rw [find?_cols_set t.cols n m d h]

lemma hasCol_setIndexCol_ne (t : Table) (n m : String) (h : m ≠ n) :
    hasCol (setIndexCol t n) m = hasCol t m := by
  simp only [hasCol, setIndexCol]
  rw [find?_cols_filter t.cols n m h]

lemma getColD_setIndexCol_ne (t : Table) (n m : String) (h : m ≠ n) :
    getColD (setIndexCol t n) m = getColD t m := by
  simp only [getColD, setIndexCol]
  rw [find?_cols_filter t.cols n m h]

lemma foldr_min_le {l : List Int} {b x : Int} (hx : x ∈ l) : l.foldr min b ≤ x := by
  induction l with
  | nil => simp at hx
  | cons c l ih =>
    rcases List.mem_cons.mp hx with h | h
    · rw [h]; exact min_le_left _ _
    · exact le_trans (min_le_right _ _) (ih h)

lemma le_foldr_max {l : List Int} {b x : Int} (hx : x ∈ l) : x ≤ l.foldr max b := by
  induction l with
  | nil => simp at hx
  | cons c l ih =>
    rcases List.mem_cons.mp hx with h | h
    · rw [h]; exact le_max_left _ _
    · exact le_trans (ih h) (le_max_right _ _)

lemma dayRange_eq {ts : List Int} {d0 : Int} {ds : List Int} (hm : ts.map dayOf = d0 :: ds) :
    dayRange ts
      = (List.range (((d0 :: ds).foldr max d0 - (d0 :: ds).foldr min d0).toNat + 1)).map
          (fun (k : Nat) => (d0 :: ds).foldr min d0 + (k : Int)) := by
  unfold dayRange
  rw [hm]

lemma mem_dayRange {ts : List Int} {d : Int} (hd : d ∈ ts.map dayOf) : d ∈ dayRange ts := by
  cases hm : ts.map dayOf with
  | nil => rw [hm] at hd; simp at hd
  | cons d0 ds =>
    rw [hm] at hd
    rw [dayRange_eq hm]
    have hlo : (d0 :: ds).foldr min d0 ≤ d := foldr_min_le hd
    have hhi : d ≤ (d0 :: ds).foldr max d0 := le_foldr_max hd
    have hk : (d - (d0 :: ds).foldr min d0).toNat
        ∈ List.range (((d0 :: ds).foldr max d0 - (d0 :: ds).foldr min d0).toNat + 1) :=
      List.mem_range.mpr (by omega)
    have he : (d0 :: ds).foldr min d0 + (((d - (d0 :: ds).foldr min d0).toNat : Nat) : Int) = d := by
      omega
    exact List.mem_map.mpr ⟨(d - (d0 :: ds).foldr min d0).toNat, hk, he⟩

lemma mem_resample_of_group {ts : List Int} {vs : List ℚ} {d : Int}
    (hg : dayGroup ts vs d ≠ []) :
    (d, some (meanQ (dayGroup ts vs d))) ∈ resampleDailyMean ts vs := by
  have hmem : d ∈ ts.map dayOf := by
    obtain ⟨q, hq⟩ := List.exists_mem_of_ne_nil _ hg
    simp only [dayGroup, List.mem_map, List.mem_filter] at hq
    obtain ⟨p, ⟨hpz, hpd⟩, _⟩ := hq
    have := (List.of_mem_zip hpz).1
    exact List.mem_map.mpr ⟨p.1, this, by simpa using hpd⟩
  have hr := mem_dayRange hmem
  have hne : (dayGroup ts vs d).isEmpty = false := by
    cases hgr : dayGroup ts vs d with
    | nil => exact absurd hgr hg
    | cons a l => rfl
  have hmm : (d, if (dayGroup ts vs d).isEmpty then none else some (meanQ (dayGroup ts vs d)))
      ∈ resampleDailyMean ts vs := by
    unfold resampleDailyMean
    exact List.mem_map_of_mem _ hr
  rw [hne] at hmm
  simpa using hmm

lemma resample_val {ts : List Int} {vs : List ℚ} {d : Int} {ov : Option ℚ}
    (h : (d, ov) ∈ resampleDailyMean ts vs) :
    ov = if (dayGroup ts vs d).isEmpty then none else some (meanQ (dayGroup ts vs d)) := by
  simp only [resampleDailyMean, List.mem_map] at h
  obtain ⟨d', _, hpd⟩ := h
  have h1 : d' = d := congrArg Prod.fst hpd
  have h2 := congrArg Prod.snd hpd
  rw [h1] at h2
  exact h2.symm

lemma covQ_comm (xs ys : List ℚ) : covQ xs ys = covQ ys xs := by
  unfold covQ
  rw [List.zipWith_comm_of_comm _ mul_comm]

lemma varQ_nonneg (xs : List ℚ) : 0 ≤ varQ xs := by
  unfold varQ covQ
  rw [List.zipWith_same]
  refine List.sum_nonneg ?_
  intro x hx
  obtain ⟨a, _, rfl⟩ := List.mem_map.mp hx
  exact mul_self_nonneg a

lemma pearson_comm (xs ys : List ℚ) : pearson xs ys = pearson ys xs := by
  unfold pearson
  rw [covQ_comm, mul_comm]

lemma pearson_self (xs : List ℚ) (h : varQ xs ≠ 0) : pearson xs xs = 1 := by
  unfold pearson
  have hv : (0 : ℝ) ≤ ((varQ xs : ℚ) : ℝ) := by exact_mod_cast varQ_nonneg xs
  rw [Real.mul_self_sqrt hv]
  have hne : ((varQ xs : ℚ) : ℝ) ≠ 0 := by exact_mod_cast h
  exact div_self hne

lemma matEntry_corr (nd : List (List ℚ)) (i j : Nat)
    (hi : i < nd.length) (hj : j < nd.length) :
    matEntry (corrMatrix nd) i j = pearson (listAt [] nd i) (listAt [] nd j) := by
  unfold matEntry corrMatrix
  rw [listAt_map ([] : List ℚ) ([] : List ℝ) _ nd i hi]
  rw [listAt_map ([] : List ℚ) (0 : ℝ) _ nd j hj]

lemma clipData_size (d : ColData) : (clipData d).size = d.size := by
  cases d <;> simp [clipData, ColData.size]

lemma bubbleSection_ok (t : Table) (kx ky ks : Nat) (x y s : String)
    (hx : selectbox (numericColNames t) kx = some x)
    (hy : selectbox (numericColNames t) ky = some y)
    (hs : selectbox (numericColNames t) ks = some s) :
    bubbleSection t kx ky ks
      = ([Out.header "Bubble Chart Analysis", Out.bubble x y s 60],
         Except.ok (setColClip t s)) := by
  unfold bubbleSection
  rw [hx, hy, hs]

/-! ## Concrete witness data -/

/-- A one-column numeric table used to instantiate universally quantified
theorems. -/
def Wnum : Table := ⟨none, [⟨"GHI", ColData.nums [-3, 2]⟩]⟩

/-! ## Claims -/

/-- Claim C6: a loaded table without a Timestamp column makes the time-series
section produce no output at all — no chart and no header — return the table
unchanged and raise nothing, leaving the rest of the pipeline unaffected. -/
theorem C6_timeseries_skip (t : Table) (h : hasCol t "Timestamp" = false) :
    timeSeriesSection t = ([], Except.ok t) := by
  unfold timeSeriesSection
  rw [h]
  simp

theorem C6_timeseries_skip_witness :
    hasCol Wnum "Timestamp" = false ∧ timeSeriesSection Wnum = ([], Except.ok Wnum) :=
  ⟨by decide, C6_timeseries_skip Wnum (by decide)⟩

/-- Claim C9: on a table with at least one numeric column, the distribution
section emits a histogram of the user-selected numeric column with the fixed
bin count 30, whatever the table contents and whatever the selection. -/
theorem C9_histogram_bins (t : Table) (k : Nat) (h : numericColNames t ≠ []) :
    ∃ c, c ∈ numericColNames t ∧
      distSection t k
        = ([Out.header "Distribution of Key Variables", Out.histogram c 30], Except.ok t) := by
  obtain ⟨c, hc, hmem⟩ := selectbox_some _ k h
  refine ⟨c, hmem, ?_⟩
  unfold distSection
  rw [hc]

theorem C9_histogram_bins_witness :
    numericColNames Wnum ≠ [] ∧
      ∃ c, c ∈ numericColNames Wnum ∧
        distSection Wnum 0
          = ([Out.header "Distribution of Key Variables", Out.histogram c 30], Except.ok Wnum) :=
  ⟨by decide, C9_histogram_bins Wnum 0 (by decide)⟩

/-- Claim C4: after the bubble-chart section runs with any chosen numeric
size column, every numeric value stored under that column name in the
resulting Loaded Table is non-negative. -/
theorem C4_bubble_clip_nonneg (t : Table) (kx ky ks : Nat) (s : String)
    (hs : selectbox (numericColNames t) ks = some s) :
    ∀ t2, (bubbleSection t kx ky ks).2 = Except.ok t2 →
      ∀ c ∈ t2.cols, c.name = s →
        ∀ xs, c.data = ColData.nums xs → ∀ x ∈ xs, 0 ≤ x := by
  have hne : numericColNames t ≠ [] := by
    intro h0
    rw [h0] at hs
    simp [selectbox] at hs
  obtain ⟨x0, hx0, -⟩ := selectbox_some _ kx hne
  obtain ⟨y0, hy0, -⟩ := selectbox_some _ ky hne
  intro t2 h2 c hc hname xs hdata x hx
  rw [bubbleSection_ok t kx ky ks x0 y0 s hx0 hy0 hs] at h2
  have ht2 : t2 = setColClip t s := (Except.ok.inj h2).symm
  rw [ht2] at hc
  obtain ⟨c0, -, hfc⟩ := List.mem_map.mp hc
  by_cases hn0 : c0.name = s
  · rw [if_pos (by simp [hn0])] at hfc
    rw [← hfc] at hdata
    cases hd0 : c0.data with
    | nums ys =>
      rw [hd0] at hdata
      have hxs : ys.map (fun v => max 0 v) = xs := ColData.nums.inj hdata
      rw [← hxs] at hx
      obtain ⟨v, -, hv⟩ := List.mem_map.mp hx
      rw [← hv]
      exact le_max_left 0 v
    | strs ys => rw [hd0] at hdata; exact absurd hdata (by simp [clipData])
    | times ys => rw [hd0] at hdata; exact absurd hdata (by simp [clipData])
  · rw [if_neg (by simp [hn0])] at hfc
    rw [← hfc] at hname
    exact absurd hname hn0

theorem C4_bubble_clip_nonneg_witness :
    selectbox (numericColNames Wnum) 0 = some "GHI" ∧
      (bubbleSection Wnum 0 0 0).2 = Except.ok (setColClip Wnum "GHI") ∧
      (0 : ℚ) ≤ 2 :=
  ⟨by decide, by decide,
    C4_bubble_clip_nonneg Wnum 0 0 0 "GHI" (by decide) (setColClip Wnum "GHI") (by decide)
      ⟨"GHI", ColData.nums [0, 2]⟩ (by decide) rfl [0, 2] rfl 2 (by decide)⟩

/-- Claim C10: the bubble section's in-place clip touches only the chosen
size column: the index, the number of columns, every column name, every row
count and the whole content of every differently named column are preserved
position by position, and within the size column values already non-negative
are unchanged at their position. -/
theorem C10_bubble_frame (t : Table) (kx ky ks : Nat) (x y s : String)
    (hx : selectbox (numericColNames t) kx = some x)
    (hy : selectbox (numericColNames t) ky = some y)
    (hs : selectbox (numericColNames t) ks = some s) :
    bubbleSection t kx ky ks
      = ([Out.header "Bubble Chart Analysis", Out.bubble x y s 60],
         Except.ok (setColClip t s))
    ∧ (setColClip t s).index = t.index
    ∧ (setColClip t s).cols.length = t.cols.length
    ∧ (∀ i, i < t.cols.length →
        (listAt colDefault (setColClip t s).cols i).name = (listAt colDefault t.cols i).name
        ∧ (listAt colDefault (setColClip t s).cols i).data.size
            = (listAt colDefault t.cols i).data.size
        ∧ ((listAt colDefault t.cols i).name ≠ s →
            listAt colDefault (setColClip t s).cols i = listAt colDefault t.cols i)
        ∧ (∀ xs, (listAt colDefault t.cols i).name = s →
            (listAt colDefault t.cols i).data = ColData.nums xs →
            (listAt colDefault (setColClip t s).cols i).data
                = ColData.nums (xs.map (fun v => max 0 v))
            ∧ ∀ j, 0 ≤ listAt 0 xs j →
                listAt 0 (xs.map (fun v => max 0 v)) j = listAt 0 xs j)) := by
  refine ⟨bubbleSection_ok t kx ky ks x y s hx hy hs, rfl, by simp [setColClip], ?_⟩
  intro i hi
  have hat : listAt colDefault (setColClip t s).cols i
      = if (listAt colDefault t.cols i).name == s then
          { listAt colDefault t.cols i with data := clipData (listAt colDefault t.cols i).data }
        else listAt colDefault t.cols i :=
    listAt_map colDefault colDefault _ t.cols i hi
  by_cases hn : (listAt colDefault t.cols i).name = s
  · rw [hat, if_pos (by simp [hn])]
    refine ⟨rfl, clipData_size _, fun hne => absurd hn hne, ?_⟩
    intro xs _ hdata
    constructor
    · show clipData (listAt colDefault t.cols i).data = ColData.nums (xs.map (fun v => max 0 v))
      rw [hdata]
      rfl
    · intro j hj
      by_cases hjl : j < xs.length
      · rw [listAt_map (0 : ℚ) (0 : ℚ) _ xs j hjl]
        exact max_eq_right hj
      · rw [listAt_ge (0 : ℚ) _ j (by simpa using Nat.le_of_not_lt hjl),
            listAt_ge (0 : ℚ) _ j (Nat.le_of_not_lt hjl)]
  · rw [hat, if_neg (by simp [hn])]
    refine ⟨rfl, rfl, fun _ => rfl, ?_⟩
    intro xs hns _
    exact absurd hns hn

theorem C10_bubble_frame_witness :
    selectbox (numericColNames Wnum) 0 = some "GHI" ∧
      bubbleSection Wnum 0 0 0
        = ([Out.header "Bubble Chart Analysis", Out.bubble "GHI" "GHI" "GHI" 60],
           Except.ok (setColClip Wnum "GHI")) :=
  ⟨by decide,
    (C10_bubble_frame Wnum 0 0 0 "GHI" "GHI" "GHI" (by decide) (by decide) (by decide)).1⟩

lemma cleaningSection_ok (t : Table) (as bs : List ℚ)
    (hc : hasCol t "Cleaning" = true)
    (ha : hasCol t "ModA" = true) (hb : hasCol t "ModB" = true)
    (hA : getColD t "ModA" = ColData.nums as) (hB : getColD t "ModB" = ColData.nums bs) :
    cleaningSection t
      = ([Out.header "Impact of Cleaning on Sensor Measurements",
          Out.groupTable ⟨"Cleaning", ["ModA", "ModB"],
            groupbyMean2 (getColD t "Cleaning").toValues as bs⟩], Except.ok t) := by
  unfold cleaningSection
  rw [hc, ha, hb, hA, hB]
  rfl

/-- A three-column table exercising the cleaning-impact aggregation. -/
def Wclean : Table :=
  ⟨none, [⟨"Cleaning", ColData.nums [0, 1, 0]⟩,
          ⟨"ModA", ColData.nums [1, 2, 3]⟩,
          ⟨"ModB", ColData.nums [4, 5, 6]⟩]⟩

/-- Claim C7: with Cleaning, ModA and ModB all present and numeric, the
cleaning-impact section emits the group table whose key column lists each
distinct Cleaning value exactly once, whose measurement columns are exactly
ModA and ModB, and whose entries are the arithmetic means (sum over count)
of each measurement over the rows of that group. -/
theorem C7_cleaning_impact (t : Table) (as bs : List ℚ)
    (hc : hasCol t "Cleaning" = true)
    (ha : hasCol t "ModA" = true) (hb : hasCol t "ModB" = true)
    (hA : getColD t "ModA" = ColData.nums as) (hB : getColD t "ModB" = ColData.nums bs) :
    cleaningSection t
      = ([Out.header "Impact of Cleaning on Sensor Measurements",
          Out.groupTable ⟨"Cleaning", ["ModA", "ModB"],
            groupbyMean2 (getColD t "Cleaning").toValues as bs⟩], Except.ok t)
    ∧ ((groupbyMean2 (getColD t "Cleaning").toValues as bs).map Prod.fst
        = (getColD t "Cleaning").toValues.dedup)
    ∧ ((getColD t "Cleaning").toValues.dedup).Nodup
    ∧ (∀ v, v ∈ (getColD t "Cleaning").toValues.dedup
        ↔ v ∈ (getColD t "Cleaning").toValues)
    ∧ (∀ p, p ∈ groupbyMean2 (getColD t "Cleaning").toValues as bs →
        p.2 = [(selAt (getColD t "Cleaning").toValues as p.1).sum
                 / ((selAt (getColD t "Cleaning").toValues as p.1).length : ℚ),
               (selAt (getColD t "Cleaning").toValues bs p.1).sum
                 / ((selAt (getColD t "Cleaning").toValues bs p.1).length : ℚ)]) := by
  refine ⟨cleaningSection_ok t as bs hc ha hb hA hB, ?_, List.nodup_dedup _,
    fun v => List.mem_dedup, ?_⟩
  · unfold groupbyMean2
    rw [List.map_map]
    exact List.map_id _
  · intro p hp
    simp only [groupbyMean2, List.mem_map] at hp
    obtain ⟨v, -, hv⟩ := hp
    rw [← hv]
    rfl

theorem C7_cleaning_impact_witness :
    hasCol Wclean "Cleaning" = true ∧ hasCol Wclean "ModA" = true ∧
      hasCol Wclean "ModB" = true ∧
      cleaningSection Wclean
        = ([Out.header "Impact of Cleaning on Sensor Measurements",
            Out.groupTable ⟨"Cleaning", ["ModA", "ModB"],
              groupbyMean2 (getColD Wclean "Cleaning").toValues [1, 2, 3] [4, 5, 6]⟩],
           Except.ok Wclean) :=
  ⟨by decide, by decide, by decide,
    (C7_cleaning_impact Wclean [1, 2, 3] [4, 5, 6] (by decide) (by decide) (by decide)
      (by decide) (by decide)).1⟩

lemma drive_links_urls_ok : ∀ p ∈ drive_links, (extractFileId p.2).isSome = true := by decide

/-- Claim C3: for a registered dataset name, the loader is a total function
of the fetch outcome: a failed download or parse yields the empty table
together with a reported error, and a successful parse yields the parsed
table verbatim with no error, with its column schema derived from the CSV
header and non-empty whenever the CSV has a header and non-empty columns. -/
theorem C3_loader_total (name url : String) (fetch : Except String Csv)
    (hreg : (name, url) ∈ drive_links) :
    (∀ e, fetch = Except.error e →
        download_and_load_data (some url) fetch
          = (Table.empty, [Out.err ("Error loading dataset: " ++ e)]))
    ∧ (∀ csv, fetch = Except.ok csv →
        download_and_load_data (some url) fetch = (tableOfCsv csv, [])
        ∧ (csv.columns.length = csv.header.length →
            (tableOfCsv csv).cols.map Col.name = csv.header)
        ∧ (csv.header ≠ [] → csv.columns ≠ [] → (∀ d ∈ csv.columns, d.size ≠ 0) →
            (tableOfCsv csv).isEmpty = false)) := by
  have hid : (extractFileId url).isSome = true := drive_links_urls_ok (name, url) hreg
  obtain ⟨fid, hfid⟩ := Option.isSome_iff_exists.mp hid
  constructor
  · intro e he
    rw [he]
    simp [download_and_load_data, hfid]
  · intro csv hk
    rw [hk]
    refine ⟨?_, ?_, ?_⟩
    · simp [download_and_load_data, hfid]
    · intro hlen
      unfold tableOfCsv
      rw [List.map_map]
      exact List.map_fst_zip _ _ (le_of_eq hlen.symm)
    · intro h1 h2 h3
      cases hh : csv.header with
      | nil => exact absurd hh h1
      | cons a l =>
        cases hcc : csv.columns with
        | nil => exact absurd hcc h2
        | cons dc dl =>
          have hdc : dc.size ≠ 0 := h3 dc (by rw [hcc]; exact List.mem_cons_self _ _)
          simp [Table.isEmpty, tableOfCsv, Table.nrows, hh, hcc, hdc]

/-- A one-column CSV used to instantiate the loader theorem. -/
def csvW : Csv := ⟨["GHI"], [ColData.nums [1]]⟩

/-- The registered remote location of the Benin-Malanville dataset. -/
def urlBenin : String :=
  "https://drive.google.com/file/d/1UUQLPW5uPlTBHn4ydYCVn59RfF5a0fOl/view?usp=drive_link"

theorem C3_loader_total_witness :
    ("Benin-Malanville", urlBenin) ∈ drive_links ∧
      download_and_load_data (some urlBenin) (Except.ok csvW) = (tableOfCsv csvW, []) :=
  ⟨by decide,
    ((C3_loader_total "Benin-Malanville" urlBenin (Except.ok csvW) (by decide)).2 csvW rfl).1⟩

lemma timeSeriesSection_ghi (t : Table) (ts : List Int) (gs : List ℚ)
    (hT : hasCol t "Timestamp" = true)
    (hTd : getColD t "Timestamp" = ColData.times ts)
    (hG : hasCol t "GHI" = true)
    (hGd : getColD t "GHI" = ColData.nums gs) :
    timeSeriesSection t
      = ([Out.header "Time Series Analysis", Out.linePlot (resampleDailyMean ts gs)],
         Except.ok (setIndexCol (setColData t "Timestamp" (ColData.times ts)) "Timestamp")) := by
  have hgt : ("GHI" : String) ≠ "Timestamp" := by decide
  have h2G : hasCol (setIndexCol (setColData t "Timestamp" (ColData.times ts)) "Timestamp")
      "GHI" = true := by
    rw [hasCol_setIndexCol_ne _ _ _ hgt, hasCol_setColData_ne _ _ _ _ hgt]
    exact hG
  have h2Gd : getColD (setIndexCol (setColData t "Timestamp" (ColData.times ts)) "Timestamp")
      "GHI" = ColData.nums gs := by
    rw [getColD_setIndexCol_ne _ _ _ hgt, getColD_setColData_ne _ _ _ _ hgt]
    exact hGd
  unfold timeSeriesSection
  rw [hT, hTd]
  simp only [parseTimes, h2G, h2Gd, if_true]

/-- A table with minute timestamps spanning two calendar days and a numeric
GHI column. -/
def Wts : Table :=
  ⟨none, [⟨"Timestamp", ColData.times [0, 1500]⟩, ⟨"GHI", ColData.nums [1, 3]⟩]⟩

/-- Claim C8: with Timestamp and GHI present, the time-series section plots
exactly the daily resampled series of GHI: its buckets are the consecutive
calendar days covered by the timestamps, every day with data carries the
arithmetic mean of the GHI values falling in that day, and nothing else. -/
theorem C8_daily_mean (t : Table) (ts : List Int) (gs : List ℚ)
    (hT : hasCol t "Timestamp" = true)
    (hTd : getColD t "Timestamp" = ColData.times ts)
    (hG : hasCol t "GHI" = true)
    (hGd : getColD t "GHI" = ColData.nums gs) :
    timeSeriesSection t
      = ([Out.header "Time Series Analysis", Out.linePlot (resampleDailyMean ts gs)],
         Except.ok (setIndexCol (setColData t "Timestamp" (ColData.times ts)) "Timestamp"))
    ∧ (∀ d, dayGroup ts gs d ≠ [] →
        (d, some (meanQ (dayGroup ts gs d))) ∈ resampleDailyMean ts gs)
    ∧ (∀ d ov, (d, ov) ∈ resampleDailyMean ts gs →
        ov = if (dayGroup ts gs d).isEmpty then none
             else some (meanQ (dayGroup ts gs d))) :=
  ⟨timeSeriesSection_ghi t ts gs hT hTd hG hGd,
   fun _ h => mem_resample_of_group h,
   fun _ _ h => resample_val h⟩

theorem C8_daily_mean_witness :
    hasCol Wts "Timestamp" = true ∧ getColD Wts "Timestamp" = ColData.times [0, 1500] ∧
      hasCol Wts "GHI" = true ∧ getColD Wts "GHI" = ColData.nums [1, 3] ∧
      dayGroup [0, 1500] [1, 3] 0 ≠ [] ∧
      (0, some (meanQ (dayGroup [0, 1500] [1, 3] 0))) ∈ resampleDailyMean [0, 1500] [1, 3] :=
  ⟨by decide, by decide, by decide, by decide, by decide,
    (C8_daily_mean Wts [0, 1500] [1, 3] (by decide) (by decide) (by decide)
      (by decide)).2.1 0 (by decide)⟩

/-- Claim C5: the correlation matrix of the numeric sub-frame of a table
with at least one numeric column is square — one row and one column per
numeric column — symmetric, and carries the entry 1 on the diagonal of
every numeric column whose variance is non-zero. -/
theorem C5_corr_matrix_props (t : Table) (_h : numericData t ≠ []) :
    (corrMatrix (numericData t)).length = (numericData t).length
    ∧ (∀ r ∈ corrMatrix (numericData t), r.length = (numericData t).length)
    ∧ (∀ i j, i < (numericData t).length → j < (numericData t).length →
        matEntry (corrMatrix (numericData t)) i j
          = matEntry (corrMatrix (numericData t)) j i)
    ∧ (∀ i, i < (numericData t).length → varQ (listAt [] (numericData t) i) ≠ 0 →
        matEntry (corrMatrix (numericData t)) i i = 1) := by
  refine ⟨by simp [corrMatrix], ?_, ?_, ?_⟩
  · intro r hr
    simp only [corrMatrix, List.mem_map] at hr
    obtain ⟨xs, -, hxs⟩ := hr
    rw [← hxs]
    simp
  · intro i j hi hj
    rw [matEntry_corr _ _ _ hi hj, matEntry_corr _ _ _ hj hi, pearson_comm]
  · intro i hi hv
    rw [matEntry_corr _ _ _ hi hi, pearson_self _ hv]

theorem C5_corr_matrix_props_witness :
    numericData Wnum ≠ [] ∧ varQ (listAt [] (numericData Wnum) 0) ≠ 0 ∧
      matEntry (corrMatrix (numericData Wnum)) 0 0 = 1 := by
  have hvar : varQ (listAt [] (numericData Wnum) 0) ≠ 0 := by
    have h0 : listAt [] (numericData Wnum) 0 = [-3, 2] := rfl
    rw [h0]
    simp [varQ, covQ, devs, meanQ]
    norm_num
  exact ⟨by decide, hvar,
    (C5_corr_matrix_props Wnum (by decide)).2.2.2 0 (by decide) hvar⟩

/-- A table holding a Cleaning indicator and a numeric GHI column but no
ModA or ModB column. -/
def Wc1 : Table :=
  ⟨none, [⟨"Cleaning", ColData.nums [0, 1]⟩, ⟨"GHI", ColData.nums [5, 6]⟩]⟩

/-- Claim C1 counterexample: on a table where Cleaning is present but ModA
is absent, the whole script halts with an uncaught KeyError raised by the
cleaning-impact section, and the bubble-chart section — a subsequent
renderer — never runs: its header is absent from the emitted output. -/
theorem C1_counterexample :
    (script "Benin-Malanville" Wc1 false 0 0 0 0).2 = Except.error keyErrMsg
    ∧ Out.header "Bubble Chart Analysis" ∉ (script "Benin-Malanville" Wc1 false 0 0 0 0).1 := by
  constructor
  · decide
  · decide

/-- Claim C1 (amended): the correlation and distribution sections degrade to
a warning when the numeric subset is empty, and the time-series, wind and
cleaning sections are skipped when their gating column is absent, all
without raising; but the cleaning-impact section raises an uncaught KeyError
when Cleaning is present and ModA or ModB is absent, and the bubble-chart
section raises when the table has no numeric columns, and an uncaught
exception halts every subsequent section. -/
theorem C1_amended_isolation (t : Table) (k kx ky ks : Nat) :
    (t.isEmpty = false → numericData t = [] →
       corrSection t = ([Out.header "Correlation Heatmap",
         Out.warn "No numeric columns available for correlation analysis."], Except.ok t))
    ∧ (numericColNames t = [] →
       distSection t k = ([Out.header "Distribution of Key Variables",
         Out.warn "No numeric columns available for distribution plots."], Except.ok t))
    ∧ (hasCol t "Timestamp" = false → timeSeriesSection t = ([], Except.ok t))
    ∧ ((hasCol t "WD" = false ∨ hasCol t "WS" = false) → windSection t = ([], Except.ok t))
    ∧ (hasCol t "Cleaning" = false → cleaningSection t = ([], Except.ok t))
    ∧ (hasCol t "Cleaning" = true → (hasCol t "ModA" = false ∨ hasCol t "ModB" = false) →
       cleaningSection t = ([Out.header "Impact of Cleaning on Sensor Measurements"],
         Except.error keyErrMsg))
    ∧ (numericColNames t = [] →
       bubbleSection t kx ky ks
         = ([Out.header "Bubble Chart Analysis"], Except.error noneErrMsg))
    ∧ (∀ (outs : List Out) (e : String) (f : Table → List Out × Except String Table),
       andThen (outs, Except.error e) f = (outs, Except.error e)) := by
  refine ⟨?_, ?_, ?_, ?_, ?_, ?_, ?_, ?_⟩
  · intro h1 h2
    have h3 : numericDfEmpty t = true := by simp [numericDfEmpty, h2]
    simp [corrSection, h1, h3]
  · intro h1
    simp [distSection, h1, selectbox]
  · intro h1
    simp [timeSeriesSection, h1]
  · intro h1
    rcases h1 with h | h <;> simp [windSection, h]
  · intro h1
    simp [cleaningSection, h1]
  · intro h1 h2
    rcases h2 with h | h <;> simp [cleaningSection, h1, h]
  · intro h1
    simp [bubbleSection, h1, selectbox]
  · intro outs e f
    rfl

theorem C1_amended_isolation_witness :
    hasCol Wc1 "Cleaning" = true ∧ hasCol Wc1 "ModA" = false ∧
      cleaningSection Wc1
        = ([Out.header "Impact of Cleaning on Sensor Measurements"], Except.error keyErrMsg) :=
  ⟨by decide, by decide,
    (C1_amended_isolation Wc1 0 0 0 0).2.2.2.2.2.1 (by decide) (Or.inl (by decide))⟩

/-- The table Wts after the time-series section has rewritten it: the
parsed Timestamp column has been moved into the index. -/
def WtsMut : Table :=
  ⟨some ⟨"Timestamp", ColData.times [0, 1500]⟩, [⟨"GHI", ColData.nums [1, 3]⟩]⟩

/-- Claim C2 counterexample: the time-series section, a renderer other than
the bubble chart, does mutate the Loaded Table: on a table with a Timestamp
column it returns a table with different columns and a different index. -/
theorem C2_counterexample :
    (timeSeriesSection Wts).2 = Except.ok WtsMut ∧ WtsMut ≠ Wts := by
  constructor
  · decide
  · decide

/-- Claim C2 (amended): the raw-data, summary, missing-values, correlation,
distribution and wind sections all pass the Loaded Table through unchanged,
and so does the cleaning section whenever it returns at all; the only
mutating renderers are the time-series section — which parses Timestamp in
place and moves it into the index — and the bubble-chart section, which
clips the chosen size column in place. -/
theorem C2_amended_mutation (t : Table) (sr : Bool) (k kx ky ks : Nat) :
    (rawSection t sr).2 = Except.ok t
    ∧ (summarySection t).2 = Except.ok t
    ∧ (missingSection t).2 = Except.ok t
    ∧ (corrSection t).2 = Except.ok t
    ∧ (distSection t k).2 = Except.ok t
    ∧ (windSection t).2 = Except.ok t
    ∧ (∀ t2, (cleaningSection t).2 = Except.ok t2 → t2 = t)
    ∧ (∀ ts, hasCol t "Timestamp" = true →
        parseTimes (getColD t "Timestamp") = some ts →
        (timeSeriesSection t).2
          = Except.ok (setIndexCol (setColData t "Timestamp" (ColData.times ts)) "Timestamp"))
    ∧ (∀ x y s, selectbox (numericColNames t) kx = some x →
        selectbox (numericColNames t) ky = some y →
        selectbox (numericColNames t) ks = some s →
        (bubbleSection t kx ky ks).2 = Except.ok (setColClip t s)) := by
  refine ⟨rfl, rfl, rfl, rfl, ?_, rfl, ?_, ?_, ?_⟩
  · cases h : selectbox (numericColNames t) k <;> simp [distSection, h]
  · intro t2 h
    unfold cleaningSection at h
    split at h
    · split at h
      · split at h
        · simp at h; exact h.symm
        · simp at h
      · simp at h
    · simp at h; exact h.symm
  · intro ts hT hp
    simp only [timeSeriesSection, hT, hp]
    split
    · split
      · split <;> rfl
      · rfl
    · next h => exact absurd trivial h
  · intro x y s hx hy hs
    rw [bubbleSection_ok t kx ky ks x y s hx hy hs]

theorem C2_amended_mutation_witness :
    hasCol Wts "Timestamp" = true ∧
      parseTimes (getColD Wts "Timestamp") = some [0, 1500] ∧
      (timeSeriesSection Wts).2
        = Except.ok (setIndexCol (setColData Wts "Timestamp" (ColData.times [0, 1500]))
            "Timestamp") :=
  ⟨by decide, by decide,
    (C2_amended_mutation Wts false 0 0 0 0).2.2.2.2.2.2.2.1 [0, 1500] (by decide) (by decide)⟩

end SolarEDA
